import Mathlib

/-
  Shallow embedding of the dictation trigger and capture pipeline of
  whispr-dictation (src/src/main.py), class WhisperDictationApp.

  Modelling conventions:
  * Machine state is the record of the instance attributes that the hotkey
    handlers, the recording lifecycle methods and the dispatcher read or
    write: `recording`, `is_recording_with_key63`, `right_shift_down`,
    `shift_held`, `shift_press_time`, `frames`, the model handle
    (`model_loaded`), the NSEvent monitor handle (`event_monitor`), and the
    two UI strings `title` and `status`.
  * A live `process_recording` thread (spawned by `stop_recording`) is
    represented by the boolean `transcribing`; the thread's completion is
    the `dispatchDone` environment event.
  * Times are rationals (the source uses real-valued `time.time()` stamps).
  * Side effects (spawning the capture thread, serializing to a temp file,
    invoking the inference engine, typing text, deleting the temp file,
    removing the monitor) are recorded as an emitted command list.
  * Fallible code returns `Except`: `record_audio_impl` models the capture
    thread body whose `audio.open` call may raise; the raise is NOT caught
    anywhere in the source, so the error branch leaves the app state as it
    was when the thread died.
-/

namespace Whispr

/-- PCM byte buffers are opaque; a captured frame is modelled as a string. -/
abbrev Frame := String

/-- One text segment as returned by the inference engine
(`segment.text` in `transcribe_audio`). -/
structure Segment where
  text : String
deriving DecidableEq, Repr

/-- Observable side effects of the pipeline, in emission order. -/
inductive Cmd where
  | startCapture
  | stopCommit
  | stopDiscard
  | updateLevel
  | createTempFile
  | engineInvoke
  | inject (text : String)
  | deleteTempFile
  | removeMonitor
  | audioTerminate
deriving DecidableEq, Repr

/-- The mutable instance attributes of `WhisperDictationApp` consulted by the
hotkey handlers and the recording lifecycle, plus `transcribing` which models
a live `process_recording` thread. -/
structure AppState where
  model_loaded : Bool
  recording : Bool
  is_recording_with_key63 : Bool
  right_shift_down : Bool
  shift_held : Bool
  shift_press_time : Option ℚ
  transcribing : Bool
  frames : List Frame
  event_monitor : Bool
  title : String
  status : String
deriving DecidableEq, Repr

/-- `self.shift_threshold = 0.75` (seconds). -/
def shift_threshold : ℚ := 3 / 4

/-- `self.GLOBE_FN_KEYCODE = 63`, also `self.trigger_key = 63`. -/
def GLOBE_FN_KEYCODE : Nat := 63

/-- `self.RIGHT_SHIFT_KEYCODE = 60`. -/
def RIGHT_SHIFT_KEYCODE : Nat := 60

/-- The state right after `__init__` finished (before the model-loading
thread completed): nothing recording, no session, model not yet loaded,
NSEvent monitor installed. -/
def initState : AppState :=
  { model_loaded := false
    recording := false
    is_recording_with_key63 := false
    right_shift_down := false
    shift_held := false
    shift_press_time := none
    transcribing := false
    frames := []
    event_monitor := true
    title := "🎙️"
    status := "Status: Ready" }

/-- The initial state once the model-loading thread has finished
(`self.model` is set). -/
def initLoaded : AppState :=
  { initState with model_loaded := true }

/-- `start_recording` (main.py lines 690-709): if the model is not loaded
yet, only the status line changes and nothing else happens; otherwise the
frame buffer is cleared, the recording flag set, the UI updated, and the
capture thread spawned (`Cmd.startCapture`). -/
def start_recording (s : AppState) : AppState × List Cmd :=
  if s.model_loaded = false then
    ({ s with status := "Status: Waiting for model to load" }, [])
  else
    ({ s with
        frames := []
        recording := true
        title := "🎙️ (Recording)"
        status := "Status: Recording..." },
     [Cmd.startCapture])

/-- `stop_recording` (main.py lines 711-726): clears the recording flag,
joins the capture thread, updates the UI, and spawns the `process_recording`
thread (dispatch to transcription commits the session: `Cmd.stopCommit`);
the spawned dispatcher thread is modelled by `transcribing := true`. -/
def stop_recording (s : AppState) : AppState × List Cmd :=
  ({ s with
      recording := false
      title := "🎙️ (Transcribing)"
      status := "Status: Transcribing..."
      transcribing := true },
   [Cmd.stopCommit])

/-- `discard_recording` (main.py lines 588-597): clears the recording flag,
joins the capture thread, drops the frames, and updates the UI; no
transcription is dispatched (`Cmd.stopDiscard`). -/
def discard_recording (s : AppState) : AppState × List Cmd :=
  ({ s with
      recording := false
      frames := []
      title := "🎙️"
      status := "Status: Recording discarded (too short)" },
   [Cmd.stopDiscard])

/-- `record_audio` (main.py lines 738-761), the capture thread body.
`openOk` is whether `self.audio.open(**stream_kwargs)` succeeds; `dev` is
the sequence of frames the device yields before `self.recording` goes
false.  The open call sits outside any try/except: on failure the raise
escapes the thread and no state is modified, modelled by `Except.error`.
On success the loop appends each read frame to `self.frames` and forwards
it to the indicator. -/
def record_audio_impl (openOk : Bool) (dev : List Frame) (s : AppState) :
    Except String (AppState × List Cmd) :=
  if openOk then
    Except.ok ({ s with frames := s.frames ++ dev }, dev.map fun _ => Cmd.updateLevel)
  else
    Except.error "could not open audio device"

/-- Python's `str.strip()` with no arguments: remove leading and trailing
whitespace characters (the source comments that Whisper adds a leading
space). -/
def pyStrip (t : String) : String :=
  ⟨((t.data.dropWhile Char.isWhitespace).reverse.dropWhile Char.isWhitespace).reverse⟩

/-- `transcribe_audio` (main.py lines 763-816).  `engine` is the stubbed
inference call `self.model.transcribe` (either the returned segments or a
raised error).  Returns the updated state, the emitted commands, and
whether the method re-raised.  With an empty frame buffer it returns early:
no temp file, no engine call, no injection.  Otherwise it serializes to a
temp file, invokes the engine, concatenates `segment.text` over the
segments, strips surrounding whitespace, injects the text iff non-empty,
and unconditionally deletes the temp file (the `finally` block). -/
def transcribe_audio_impl (engine : Except String (List Segment)) (s : AppState) :
    (AppState × List Cmd) × Bool :=
  if s.frames.isEmpty then
    (({ s with title := "🎙️", status := "Status: No audio recorded" }, []), false)
  else
    match engine with
    | Except.error _ =>
        (({ s with status := "Status: Transcription error" },
          [Cmd.createTempFile, Cmd.engineInvoke, Cmd.deleteTempFile]), true)
    | Except.ok segments =>
        let text := pyStrip (segments.foldl (fun acc seg => acc ++ seg.text) "")
        if text = "" then
          (({ s with status := "Status: No speech detected" },
            [Cmd.createTempFile, Cmd.engineInvoke, Cmd.deleteTempFile]), false)
        else
          (({ s with status := "Status: Transcribed: " ++ text.take 30 ++ "..." },
            [Cmd.createTempFile, Cmd.engineInvoke, Cmd.inject text, Cmd.deleteTempFile]),
           false)

/-- `process_recording` (main.py lines 728-736), the dispatcher thread body:
runs `transcribe_audio`, catches any raise (setting the error status), and
always resets the title in the `finally` block. -/
def process_recording (engine : Except String (List Segment)) (s : AppState) :
    AppState × List Cmd :=
  let r := transcribe_audio_impl engine s
  let s1 := if r.2 then { r.1.1 with status := "Status: Error during transcription" } else r.1.1
  ({ s1 with title := "🎙️" }, r.1.2)

/-- `cleanup` (main.py lines 252-271), run by the watchdog when the exit
flag trips: if recording, clear the flag and join the capture thread (no
dispatch, no discard bookkeeping); then remove the NSEvent monitor and
terminate the audio handle. -/
def cleanup (s : AppState) : AppState × List Cmd :=
  let s1 := if s.recording then { s with recording := false } else s
  ((if s1.event_monitor then { s1 with event_monitor := false } else s1),
   (if s1.event_monitor then [Cmd.removeMonitor] else []) ++ [Cmd.audioTerminate])

/-- Events consumed by the NSEvent-based primary hotkey source
(`handle_event`, main.py lines 485-542), plus environment steps of the
other threads: the model-loading thread finishing, the capture thread
reading a frame, and the dispatcher thread completing. -/
inductive NSEv where
  | flagsChanged (keycode : Nat) (shiftFlag : Bool) (now : ℚ)
  | keyDown (keycode : Nat) (now : ℚ)
  | keyUp (keycode : Nat) (now : ℚ)
  | modelLoadFinished
  | frameRead (data : Frame)
  | dispatchDone (engine : Except String (List Segment))

/-- `handle_event` (main.py lines 485-542) for keyboard events, extended
with the three environment events.  FlagsChanged with the right-shift
keycode tracks `right_shift_down` edge detection; a press while not
recording optimistically starts a session (arming), a release while
`shift_held` commits or discards on the hold duration.  KeyDown/KeyUp of
the Globe/Fn key start and stop the momentary session.  No other keycode
does anything in this source. -/
def handle_event (e : NSEv) (s : AppState) : AppState × List Cmd :=
  match e with
  | NSEv.flagsChanged keycode shiftFlag now =>
      if keycode = RIGHT_SHIFT_KEYCODE then
        if shiftFlag = true ∧ s.right_shift_down = false then
          if s.recording = false then
            start_recording
              { s with
                  right_shift_down := true
                  shift_press_time := some now
                  shift_held := true }
          else ({ s with right_shift_down := true }, [])
        else if shiftFlag = false ∧ s.right_shift_down = true then
          if s.shift_held = true then
            if now - s.shift_press_time.getD 0 < shift_threshold then
              discard_recording { s with right_shift_down := false, shift_held := false }
            else
              stop_recording { s with right_shift_down := false, shift_held := false }
          else ({ s with right_shift_down := false }, [])
        else (s, [])
      else (s, [])
  | NSEv.keyDown keycode _ =>
      if keycode = GLOBE_FN_KEYCODE then
        if s.recording = false ∧ s.is_recording_with_key63 = false then
          start_recording { s with is_recording_with_key63 := true }
        else (s, [])
      else (s, [])
  | NSEv.keyUp keycode _ =>
      if keycode = GLOBE_FN_KEYCODE then
        if s.recording = true ∧ s.is_recording_with_key63 = true then
          stop_recording { s with is_recording_with_key63 := false }
        else (s, [])
      else (s, [])
  | NSEv.modelLoadFinished =>
      ({ s with model_loaded := true, title := "🎙️", status := "Status: Ready" }, [])
  | NSEv.frameRead data =>
      if s.recording then
        ({ s with frames := s.frames ++ [data] }, [Cmd.updateLevel])
      else (s, [])
  | NSEv.dispatchDone engine =>
      if s.transcribing then
        ({ (process_recording engine s).1 with transcribing := false },
         (process_recording engine s).2)
      else (s, [])

/-- Run the primary (NSEvent) machine over a list of events, accumulating
the emitted commands. -/
def runNS (s : AppState) : List NSEv → AppState × List Cmd
  | [] => (s, [])
  | e :: es =>
      ((runNS (handle_event e s).1 es).1,
       (handle_event e s).2 ++ (runNS (handle_event e s).1 es).2)

/-- Keys as seen by the pynput fallback listener: the special
`Key.shift_r`, keycodes carrying a `vk` attribute, and other special keys
without one. -/
inductive PKey where
  | shiftR
  | keycode (vk : Nat)
  | special
deriving DecidableEq, Repr

/-- `hasattr(key, 'vk')` for a pynput key. -/
def hasVk : PKey → Bool
  | PKey.keycode _ => true
  | _ => false

/-- `key.vk` for a pynput key that has one. -/
def vkOf : PKey → Nat
  | PKey.keycode v => v
  | _ => 0

/-- `on_press` (main.py lines 606-633), the fallback listener's press
handler: while `shift_held`, any key other than right shift cancels the
armed session immediately (discard) and returns; a right-shift press while
not recording arms the threshold session and optimistically starts
recording.  A press of the Globe/Fn keycode is only logged. -/
def on_press (k : PKey) (now : ℚ) (s : AppState) : AppState × List Cmd :=
  if s.shift_held = true ∧ k ≠ PKey.shiftR then
    discard_recording { s with shift_held := false }
  else if k = PKey.shiftR then
    if s.recording = false then
      start_recording { s with shift_press_time := some now, shift_held := true }
    else (s, [])
  else (s, [])

/-- `on_release` (main.py lines 635-663), the fallback listener's release
handler: a release of the trigger keycode (vk 63) STARTS a session when
none is open and stops (commits) it when one is open with that key; a
right-shift release while `shift_held` commits or discards on the hold
duration. -/
def on_release (k : PKey) (now : ℚ) (s : AppState) : AppState × List Cmd :=
  let r :=
    if hasVk k = true ∧ vkOf k = GLOBE_FN_KEYCODE then
      if s.recording = false ∧ s.is_recording_with_key63 = false then
        start_recording { s with is_recording_with_key63 := true }
      else if s.recording = true ∧ s.is_recording_with_key63 = true then
        stop_recording { s with is_recording_with_key63 := false }
      else (s, [])
    else (s, [])
  if k = PKey.shiftR ∧ r.1.shift_held = true then
    if now - r.1.shift_press_time.getD 0 < shift_threshold then
      (((discard_recording { r.1 with shift_held := false }).1),
       r.2 ++ (discard_recording { r.1 with shift_held := false }).2)
    else
      (((stop_recording { r.1 with shift_held := false }).1),
       r.2 ++ (stop_recording { r.1 with shift_held := false }).2)
  else r

/-- Events of the pynput fallback source. -/
inductive PEv where
  | press (k : PKey) (now : ℚ)
  | release (k : PKey) (now : ℚ)

/-- One fallback-listener step. -/
def pstep (e : PEv) (s : AppState) : AppState × List Cmd :=
  match e with
  | PEv.press k now => on_press k now s
  | PEv.release k now => on_release k now s

/-- Run the fallback machine over a list of events, accumulating the
emitted commands. -/
def runP (s : AppState) : List PEv → AppState × List Cmd
  | [] => (s, [])
  | e :: es =>
      ((runP (pstep e s).1 es).1,
       (pstep e s).2 ++ (runP (pstep e s).1 es).2)

/-- The texts handed to the text injector among a command list. -/
def injTexts : List Cmd → List String
  | [] => []
  | Cmd.inject t :: cs => t :: injTexts cs
  | _ :: cs => injTexts cs

/-- The state after the NSEvent source delivers the rising right-shift edge
to an idle app with the model loaded: the threshold trigger is armed and
recording has optimistically started. -/
def armedNS : AppState := (handle_event (NSEv.flagsChanged 60 true 0) initLoaded).1

/-- The state after the fallback source delivers a right-shift press to an
idle app with the model loaded: armed, recording started. -/
def armedP : AppState := (on_press PKey.shiftR 0 initLoaded).1

/-- The dispatcher body never touches the trigger flags: the state returned
by `process_recording` agrees with its input on `model_loaded`, `recording`,
`is_recording_with_key63`, `shift_held`, `right_shift_down` and
`transcribing`. -/
theorem process_recording_flags (engine : Except String (List Segment)) (s : AppState) :
    (process_recording engine s).1.model_loaded = s.model_loaded
    ∧ (process_recording engine s).1.recording = s.recording
    ∧ (process_recording engine s).1.is_recording_with_key63 = s.is_recording_with_key63
    ∧ (process_recording engine s).1.shift_held = s.shift_held
    ∧ (process_recording engine s).1.right_shift_down = s.right_shift_down
    ∧ (process_recording engine s).1.transcribing = s.transcribing := by
  unfold process_recording transcribe_audio_impl
  rcases engine with e | segs <;> by_cases h : s.frames.isEmpty
  · simp [h]
  · simp [h]
  · simp [h]
  · simp only [h, Bool.false_eq_true, if_false]
    split <;> simp

/-- The mutual-exclusion invariant that does hold in the code for the
primary source once the model is loaded: each per-source session flag
implies the recording flag, and the two flags are never set together. -/
def NoOverlap (s : AppState) : Prop :=
  s.model_loaded = true
  ∧ (s.is_recording_with_key63 = true → s.recording = true)
  ∧ (s.shift_held = true → s.recording = true)
  ∧ (s.is_recording_with_key63 = false ∨ s.shift_held = false)

/-- `NoOverlap` is preserved by every single event of the primary machine. -/
theorem noOverlap_handle_event (e : NSEv) (s : AppState) (h : NoOverlap s) :
    NoOverlap (handle_event e s).1 := by
  obtain ⟨hm, hk, hs, hx⟩ := h
  cases e with
  | flagsChanged kc flag now =>
      simp only [handle_event]
      split_ifs <;>
        simp_all [NoOverlap, start_recording, stop_recording, discard_recording]
  | keyDown kc now =>
      simp only [handle_event]
      split_ifs <;> simp_all [NoOverlap, start_recording]
  | keyUp kc now =>
      simp only [handle_event]
      split_ifs <;> simp_all [NoOverlap, stop_recording]
  | modelLoadFinished => simp_all [handle_event, NoOverlap]
  | frameRead data =>
      simp only [handle_event]
      split_ifs <;> simp_all [NoOverlap]
  | dispatchDone engine =>
      obtain ⟨p1, p2, p3, p4, p5, p6⟩ := process_recording_flags engine s
      simp only [handle_event]
      split_ifs <;> simp_all [NoOverlap]

/-- `NoOverlap` is preserved by any event sequence of the primary machine. -/
theorem noOverlap_runNS (es : List NSEv) (s : AppState) (h : NoOverlap s) :
    NoOverlap (runNS s es).1 := by
  induction es generalizing s with
  | nil => exact h
  | cons e es ih => exact ih _ (noOverlap_handle_event e s h)

/-- C1, counterexample.  The claim says a momentary Key-Down delivered while
a previous session is still Transcribing is ignored and starts no capture.
In the code nothing tracks the in-flight dispatcher: after Down-Up of the
Globe/Fn key the dispatcher thread is live (`transcribing = true`,
`recording = false`, `is_recording_with_key63 = false`), so a second
Key-Down passes the `not self.recording and not self.is_recording_with_key63`
guard and starts a new capture at once: the trace Down, Up, Down emits
`StartCapture` twice and ends with Recording and Transcribing simultaneously
active. -/
theorem C1_counterexample :
    (runNS initLoaded [NSEv.keyDown 63 0, NSEv.keyUp 63 1, NSEv.keyDown 63 2]).1.recording = true
    ∧ (runNS initLoaded
        [NSEv.keyDown 63 0, NSEv.keyUp 63 1, NSEv.keyDown 63 2]).1.transcribing = true
    ∧ (runNS initLoaded [NSEv.keyDown 63 0, NSEv.keyUp 63 1, NSEv.keyDown 63 2]).2.count
        Cmd.startCapture = 2 := by
  decide

/-- C1, amended.  What the code does guarantee, for every interleaving of
events of the primary source started from the loaded idle state: the Armed
flag (`shift_held`) and the momentary-session flag
(`is_recording_with_key63`) are never set together, and each of them
implies the recording flag — so at most one of Armed and
Recording(momentary) is active at any instant.  Transcribing is NOT part of
any such exclusion: a momentary Key-Down while the dispatcher is in flight
starts a new capture immediately (see the counterexample). -/
theorem C1_amended_armed_recording_exclusive (es : List NSEv) :
    ((runNS initLoaded es).1.shift_held
        && (runNS initLoaded es).1.is_recording_with_key63) = false
    ∧ ((runNS initLoaded es).1.is_recording_with_key63
        && !(runNS initLoaded es).1.recording) = false
    ∧ ((runNS initLoaded es).1.shift_held && !(runNS initLoaded es).1.recording) = false := by
  obtain ⟨hm, hk, hs, hx⟩ :=
    noOverlap_runNS es initLoaded (by simp [NoOverlap, initLoaded, initState])
  cases h1 : (runNS initLoaded es).1.shift_held <;>
    cases h2 : (runNS initLoaded es).1.is_recording_with_key63 <;>
      cases h3 : (runNS initLoaded es).1.recording <;> simp_all

/-- C2, counterexample.  The claim quantifies over both hotkey event
sources, but the cancel-on-other-key rule exists only in the pynput
fallback: the primary NSEvent handler checks no keycode other than 63, so
a Down edge of key 5 delivered while the threshold trigger is Armed emits
nothing and leaves the machine Armed (no `StopCapture(discard)`, no
transition to Idle). -/
theorem C2_counterexample :
    armedNS.shift_held = true
    ∧ handle_event (NSEv.keyDown 5 1) armedNS = (armedNS, []) := by
  decide

/-- C2, amended.  Only under the fallback (pynput) source does a Down edge
of any key other than the right-shift trigger, delivered while Armed, emit
`StopCapture(discard)` and return the machine to Idle; it does so
regardless of the elapsed hold time (the press handler consults no clock).
The primary NSEvent source ignores other keys' Down edges while Armed. -/
theorem C2_amended_other_key_cancels_fallback (k : PKey) (now : ℚ) (s : AppState)
    (hk : k ≠ PKey.shiftR) (hs : s.shift_held = true) :
    (on_press k now s).2 = [Cmd.stopDiscard]
    ∧ (on_press k now s).1.recording = false
    ∧ (on_press k now s).1.shift_held = false
    ∧ (on_press k now s).1.frames = [] := by
  unfold on_press
  rw [if_pos ⟨hs, hk⟩]
  simp [discard_recording]

/-- C2, witness for the amended theorem: a concrete third key (vk 5) pressed
0.001 s of hold time into an armed fallback session is discarded. -/
theorem C2_amended_other_key_cancels_fallback_witness :
    (PKey.keycode 5 ≠ PKey.shiftR ∧ armedP.shift_held = true)
    ∧ ((on_press (PKey.keycode 5) (1 / 1000) armedP).2 = [Cmd.stopDiscard]
       ∧ (on_press (PKey.keycode 5) (1 / 1000) armedP).1.recording = false
       ∧ (on_press (PKey.keycode 5) (1 / 1000) armedP).1.shift_held = false
       ∧ (on_press (PKey.keycode 5) (1 / 1000) armedP).1.frames = []) :=
  ⟨⟨by decide, by decide⟩,
   C2_amended_other_key_cancels_fallback (PKey.keycode 5) (1 / 1000) armedP
     (by decide) (by decide)⟩

/-- C3, counterexample.  The claim says that under either event source a
momentary-trigger Key-Down while Idle emits `StartCapture` and the Key-Up
emits `StopCapture(commit)`.  Under the fallback source the press handler
only logs the trigger key: Down emits nothing, and it is the Up edge that
starts the capture, so Down-then-Up emits one `StartCapture`, no
`StopCapture(commit)`, and leaves the machine still recording. -/
theorem C3_counterexample :
    (pstep (PEv.press (PKey.keycode 63) 0) initLoaded).2.count Cmd.startCapture = 0
    ∧ (runP initLoaded
        [PEv.press (PKey.keycode 63) 0, PEv.release (PKey.keycode 63) 1]).2.count
        Cmd.stopCommit = 0
    ∧ (runP initLoaded
        [PEv.press (PKey.keycode 63) 0, PEv.release (PKey.keycode 63) 1]).1.recording
        = true := by
  decide

/-- C3, amended.  Under the primary NSEvent source the claim holds: Down
then Up of the Globe/Fn key with no intervening events emits exactly one
`StartCapture` and one `StopCapture(commit)`.  Under the fallback source
the momentary trigger toggles on release edges only: Down emits nothing,
the first Up starts the capture, and a second press-release pair is needed
to commit it. -/
theorem C3_amended_momentary_edges :
    (runNS initLoaded [NSEv.keyDown 63 0, NSEv.keyUp 63 1]).2
        = [Cmd.startCapture, Cmd.stopCommit]
    ∧ (pstep (PEv.press (PKey.keycode 63) 0) initLoaded).2 = []
    ∧ (runP initLoaded
        [PEv.press (PKey.keycode 63) 0, PEv.release (PKey.keycode 63) 1]).2
        = [Cmd.startCapture]
    ∧ (runP initLoaded
        [PEv.press (PKey.keycode 63) 0, PEv.release (PKey.keycode 63) 1,
         PEv.press (PKey.keycode 63) 2, PEv.release (PKey.keycode 63) 3]).2
        = [Cmd.startCapture, Cmd.stopCommit] := by
  decide

/-- C4, confirmed.  Releasing the threshold-gated (right shift) trigger
while Armed discards when the hold duration is strictly below the 0.75 s
threshold and commits otherwise, under both event sources; a hold of
exactly the threshold commits (the code discards only on strict `<`). -/
theorem C4_hold_threshold_commit_discard (t0 t1 : ℚ) (s : AppState)
    (h1 : s.right_shift_down = true) (h2 : s.shift_held = true)
    (h3 : s.shift_press_time = some t0) :
    (handle_event (NSEv.flagsChanged 60 false t1) s).2
        = (if t1 - t0 < shift_threshold then [Cmd.stopDiscard] else [Cmd.stopCommit])
    ∧ (on_release PKey.shiftR t1 s).2
        = (if t1 - t0 < shift_threshold then [Cmd.stopDiscard] else [Cmd.stopCommit])
    ∧ (handle_event (NSEv.flagsChanged 60 false (t0 + shift_threshold)) s).2
        = [Cmd.stopCommit]
    ∧ (on_release PKey.shiftR (t0 + shift_threshold) s).2 = [Cmd.stopCommit] := by
  refine ⟨?_, ?_, ?_, ?_⟩ <;>
    simp [handle_event, on_release, RIGHT_SHIFT_KEYCODE, hasVk, h1, h2, h3,
      discard_recording, stop_recording, apply_ite, add_sub_cancel_left]

/-- C4, witness: from the concrete armed state reached at time 0, a release
at exactly 0.75 s takes the commit branch, and the general conclusion holds
at t1 = 1. -/
theorem C4_hold_threshold_commit_discard_witness :
    (armedNS.right_shift_down = true ∧ armedNS.shift_held = true
     ∧ armedNS.shift_press_time = some 0)
    ∧ ((handle_event (NSEv.flagsChanged 60 false 1) armedNS).2
        = (if (1 : ℚ) - 0 < shift_threshold then [Cmd.stopDiscard] else [Cmd.stopCommit])
       ∧ (on_release PKey.shiftR 1 armedNS).2
        = (if (1 : ℚ) - 0 < shift_threshold then [Cmd.stopDiscard] else [Cmd.stopCommit])
       ∧ (handle_event (NSEv.flagsChanged 60 false (0 + shift_threshold)) armedNS).2
        = [Cmd.stopCommit]
       ∧ (on_release PKey.shiftR (0 + shift_threshold) armedNS).2 = [Cmd.stopCommit]) :=
  ⟨⟨by decide, by decide, by decide⟩,
   C4_hold_threshold_commit_discard 0 1 armedNS (by decide) (by decide) (by decide)⟩

/-- C5, counterexample.  The claim says a device-open failure during
`StartCapture` is caught as a capture-failed result and the trigger state
returns to Idle.  In the code `self.audio.open(...)` sits outside any
try/except: the raise escapes the capture thread, nothing resets
`self.recording`, and the state the app is left in after the failed open is
the post-`start_recording` state with the recording flag still set — it is
Recording, not Idle. -/
theorem C5_counterexample :
    record_audio_impl false [] (start_recording initLoaded).1
        = Except.error "could not open audio device"
    ∧ (start_recording initLoaded).1.recording = true := by
  exact ⟨rfl, rfl⟩

/-- C5, amended.  A failed device open makes the capture thread die with an
uncaught exception and leaves the recording flag set (state Recording, not
Idle) until the user's next stop or discard edge.  Because the failed
thread appended no frames, a session committed afterwards hits the empty
frame buffer: the dispatcher returns early and neither the inference engine
nor the text injector is ever reached, and the machine then ends Idle. -/
theorem C5_amended_open_failure_uncaught (dev : List Frame) (s : AppState)
    (engine : Except String (List Segment)) :
    record_audio_impl false dev s = Except.error "could not open audio device"
    ∧ (runNS initLoaded
        [NSEv.keyDown 63 0, NSEv.keyUp 63 1, NSEv.dispatchDone engine]).2.count
        Cmd.engineInvoke = 0
    ∧ injTexts (runNS initLoaded
        [NSEv.keyDown 63 0, NSEv.keyUp 63 1, NSEv.dispatchDone engine]).2 = []
    ∧ (runNS initLoaded
        [NSEv.keyDown 63 0, NSEv.keyUp 63 1, NSEv.dispatchDone engine]).1.recording = false
    ∧ (runNS initLoaded
        [NSEv.keyDown 63 0, NSEv.keyUp 63 1, NSEv.dispatchDone engine]).1.transcribing
        = false := by
  exact ⟨rfl, rfl, rfl, rfl, rfl⟩

/-- Helper for C6: folding string concatenation over the segments equals
joining their mapped texts. -/
theorem foldl_append_eq_join (segs : List Segment) :
    segs.foldl (fun acc seg => acc ++ seg.text) "" = String.join (segs.map Segment.text) := by
  unfold String.join
  rw [List.foldl_map]

/-- C6, confirmed.  For any sequence of segments returned by the engine and
any non-empty frame buffer, the text handed to the injector is exactly the
concatenation of the segments' texts in order followed by one surrounding
whitespace strip (and nothing is injected when that strip leaves the empty
string); for the segments "Hello" and " world" exactly "Hello world" is
injected. -/
theorem C6_concat_then_strip (s : AppState) (segs : List Segment) (hf : s.frames ≠ []) :
    injTexts (transcribe_audio_impl (Except.ok segs) s).1.2
      = (if pyStrip (String.join (segs.map Segment.text)) = "" then []
         else [pyStrip (String.join (segs.map Segment.text))])
    ∧ injTexts (transcribe_audio_impl
        (Except.ok [Segment.mk "Hello", Segment.mk " world"]) s).1.2 = ["Hello world"] := by
  have hf' : s.frames.isEmpty = false := by
    cases hfr : s.frames with
    | nil => exact absurd hfr hf
    | cons a l => simp [List.isEmpty]
  constructor
  · simp only [transcribe_audio_impl, hf', Bool.false_eq_true, if_false,
      foldl_append_eq_join]
    split_ifs <;> simp [injTexts]
  · have hc : pyStrip ([Segment.mk "Hello", Segment.mk " world"].foldl
        (fun acc seg => acc ++ seg.text) "") = "Hello world" := by decide
    simp only [transcribe_audio_impl, hf', Bool.false_eq_true, if_false, hc]
    rw [if_neg (by decide : ¬("Hello world" = ""))]
    simp [injTexts]

/-- C6, witness: with one captured frame present, the stubbed segments
"Hello" and " world" lead to exactly "Hello world" being injected. -/
theorem C6_concat_then_strip_witness :
    ({ initLoaded with frames := ["f"] } : AppState).frames ≠ []
    ∧ (injTexts (transcribe_audio_impl
          (Except.ok [Segment.mk "Hello", Segment.mk " world"])
          { initLoaded with frames := ["f"] }).1.2
        = (if pyStrip (String.join ([Segment.mk "Hello", Segment.mk " world"].map
              Segment.text)) = "" then []
           else [pyStrip (String.join ([Segment.mk "Hello", Segment.mk " world"].map
              Segment.text))])
       ∧ injTexts (transcribe_audio_impl
          (Except.ok [Segment.mk "Hello", Segment.mk " world"])
          { initLoaded with frames := ["f"] }).1.2 = ["Hello world"]) :=
  ⟨by decide,
   C6_concat_then_strip { initLoaded with frames := ["f"] }
     [Segment.mk "Hello", Segment.mk " world"] (by decide)⟩

/-- C7, confirmed.  When the engine returns segments whose concatenation
strips to the empty string (in particular no segments at all), the
dispatcher injects nothing, the run is a normal non-error outcome
(`transcribe_audio` does not raise; the status line reports "No speech
detected"), and once the dispatcher thread finishes the machine is Idle:
nothing recording, no armed session, no momentary session, no dispatch in
flight, and the title is reset. -/
theorem C7_empty_result_no_injection (s : AppState) (segs : List Segment)
    (hT : s.transcribing = true) (hR : s.recording = false)
    (hS : s.shift_held = false) (hK : s.is_recording_with_key63 = false)
    (hf : s.frames ≠ [])
    (hE : pyStrip (segs.foldl (fun acc seg => acc ++ seg.text) "") = "") :
    injTexts (handle_event (NSEv.dispatchDone (Except.ok segs)) s).2 = []
    ∧ (transcribe_audio_impl (Except.ok segs) s).2 = false
    ∧ (handle_event (NSEv.dispatchDone (Except.ok segs)) s).1.recording = false
    ∧ (handle_event (NSEv.dispatchDone (Except.ok segs)) s).1.shift_held = false
    ∧ (handle_event (NSEv.dispatchDone (Except.ok segs)) s).1.is_recording_with_key63 = false
    ∧ (handle_event (NSEv.dispatchDone (Except.ok segs)) s).1.transcribing = false
    ∧ (handle_event (NSEv.dispatchDone (Except.ok segs)) s).1.status
        = "Status: No speech detected"
    ∧ (handle_event (NSEv.dispatchDone (Except.ok segs)) s).1.title = "🎙️" := by
  have hf' : s.frames.isEmpty = false := by
    cases hfr : s.frames with
    | nil => exact absurd hfr hf
    | cons a l => simp [List.isEmpty]
  simp [handle_event, process_recording, transcribe_audio_impl, hT, hR, hS, hK, hf', hE,
    injTexts]

/-- C7, witness: a dispatcher in flight over one frame whose stubbed engine
returns no segments injects nothing and lands Idle. -/
theorem C7_empty_result_no_injection_witness :
    (({ initLoaded with transcribing := true, frames := ["f"] } : AppState).transcribing = true
     ∧ ({ initLoaded with transcribing := true, frames := ["f"] } : AppState).recording = false
     ∧ ({ initLoaded with transcribing := true, frames := ["f"] } : AppState).shift_held = false
     ∧ ({ initLoaded with
          transcribing := true
          frames := ["f"] } : AppState).is_recording_with_key63 = false
     ∧ ({ initLoaded with transcribing := true, frames := ["f"] } : AppState).frames ≠ []
     ∧ pyStrip (([] : List Segment).foldl (fun acc seg => acc ++ seg.text) "") = "")
    ∧ (injTexts (handle_event (NSEv.dispatchDone (Except.ok []))
          { initLoaded with transcribing := true, frames := ["f"] }).2 = []
       ∧ (transcribe_audio_impl (Except.ok [])
          { initLoaded with transcribing := true, frames := ["f"] }).2 = false
       ∧ (handle_event (NSEv.dispatchDone (Except.ok []))
          { initLoaded with transcribing := true, frames := ["f"] }).1.recording = false
       ∧ (handle_event (NSEv.dispatchDone (Except.ok []))
          { initLoaded with transcribing := true, frames := ["f"] }).1.shift_held = false
       ∧ (handle_event (NSEv.dispatchDone (Except.ok []))
          { initLoaded with
            transcribing := true
            frames := ["f"] }).1.is_recording_with_key63 = false
       ∧ (handle_event (NSEv.dispatchDone (Except.ok []))
          { initLoaded with transcribing := true, frames := ["f"] }).1.transcribing = false
       ∧ (handle_event (NSEv.dispatchDone (Except.ok []))
          { initLoaded with transcribing := true, frames := ["f"] }).1.status
          = "Status: No speech detected"
       ∧ (handle_event (NSEv.dispatchDone (Except.ok []))
          { initLoaded with transcribing := true, frames := ["f"] }).1.title = "🎙️") :=
  ⟨⟨by decide, by decide, by decide, by decide, by decide, by decide⟩,
   C7_empty_result_no_injection { initLoaded with transcribing := true, frames := ["f"] }
     [] (by decide) (by decide) (by decide) (by decide) (by decide) (by decide)⟩

/-- C8, confirmed.  When the watchdog runs `cleanup` while a recording
session is active, the recording flag is cleared with no dispatch (the
session is discarded), the machine never enters Transcribing, and the
shutdown path emits no `StopCapture(commit)`, no inference-engine call and
no injection — it only removes the event monitor and terminates the audio
handle. -/
theorem C8_shutdown_discards (s : AppState)
    (h1 : s.recording = true) (h2 : s.transcribing = false) :
    (cleanup s).1.recording = false
    ∧ (cleanup s).1.transcribing = false
    ∧ (cleanup s).2.count Cmd.stopCommit = 0
    ∧ (cleanup s).2.count Cmd.engineInvoke = 0
    ∧ injTexts (cleanup s).2 = [] := by
  by_cases hm : s.event_monitor <;>
    simp [cleanup, h1, h2, hm, injTexts, List.count_cons, List.count_nil]

/-- C8, witness: shutting down from the concrete armed-and-recording state
discards the session and reaches no transcription. -/
theorem C8_shutdown_discards_witness :
    (armedNS.recording = true ∧ armedNS.transcribing = false)
    ∧ ((cleanup armedNS).1.recording = false
       ∧ (cleanup armedNS).1.transcribing = false
       ∧ (cleanup armedNS).2.count Cmd.stopCommit = 0
       ∧ (cleanup armedNS).2.count Cmd.engineInvoke = 0
       ∧ injTexts (cleanup armedNS).2 = []) :=
  ⟨⟨by decide, by decide⟩, C8_shutdown_discards armedNS (by decide) (by decide)⟩

/-- C9, confirmed.  While the model has not finished loading,
`start_recording` changes the status line and nothing else: the frame
buffer is untouched, the recording flag is untouched (so it stays false
when it was false), and no capture thread is spawned. -/
theorem C9_start_recording_model_absent (s : AppState) (h : s.model_loaded = false) :
    start_recording s = ({ s with status := "Status: Waiting for model to load" }, []) := by
  unfold start_recording
  rw [if_pos h]

/-- C9, witness: `start_recording` on the freshly initialized state (model
still loading) only rewrites the status line and spawns nothing. -/
theorem C9_start_recording_model_absent_witness :
    initState.model_loaded = false
    ∧ start_recording initState
        = ({ initState with status := "Status: Waiting for model to load" }, []) :=
  ⟨rfl, C9_start_recording_model_absent initState rfl⟩

/-- C10, confirmed.  A session committed with an empty frame buffer makes
`transcribe_audio` return early: no temporary file is created, the
inference engine is never invoked, no text is injected (the emitted command
list is empty), no exception is raised, and only the title and status
change. -/
theorem C10_commit_empty_frames (engine : Except String (List Segment)) (s : AppState)
    (h : s.frames = []) :
    transcribe_audio_impl engine s
      = (({ s with title := "🎙️", status := "Status: No audio recorded" }, []), false) := by
  unfold transcribe_audio_impl
  rw [h]
  rfl

/-- C10, witness: committing the loaded idle state (empty frame buffer)
with a stubbed engine produces the early return. -/
theorem C10_commit_empty_frames_witness :
    initLoaded.frames = []
    ∧ transcribe_audio_impl (Except.ok [Segment.mk "Hello"]) initLoaded
        = (({ initLoaded with
              title := "🎙️"
              status := "Status: No audio recorded" }, []), false) :=
  ⟨rfl, C10_commit_empty_frames (Except.ok [Segment.mk "Hello"]) initLoaded rfl⟩

end Whispr
